import Mathlib

/-!
Verification of `docs/conf.py` (Sphinx documentation-build configuration of
the `configurature` repository).

The file is a Python module evaluated once per documentation build.  We embed
it shallowly: the external `setuptools_scm` library (not part of this
repository) is modelled by an environment `ScmEnv` supplying the results of
the git-branch lookup and of version resolution; the module body is a
sequence of top-level assignments, modelled by an interpreter `evalConf`
building the module namespace (an association list, most recent binding
first) inside the `Except` monad so that an exception raised by the external
library propagates and aborts evaluation, exactly as in Python.
-/

/-- A Python exception, modelled by its message. -/
inductive PyErr where
  | exc : String → PyErr
deriving DecidableEq

/-- A Python value as it occurs in `docs/conf.py`: strings, lists and
booleans. -/
inductive PyVal where
  | str : String → PyVal
  | listv : List PyVal → PyVal
  | bool : Bool → PyVal

/-- Version metadata resolved by `setuptools_scm` from the repository: the
object `v` passed to a `version_scheme` / `local_scheme` callback.  Only its
`tag` attribute is used by `docs/conf.py`. -/
structure ScmVersion where
  tag : String

/-- The external world as seen by `docs/conf.py`: the outcome of
`GitWorkdir(Path("../").resolve()).get_branch()`, the outcome of resolving
the repository's version metadata, and the default `version_scheme` /
`local_scheme` used by a plain `get_version(root='../')` call.  Each
`Except` value is `.error e` when the corresponding library call raises. -/
structure ScmEnv where
  getBranch : Except PyErr String
  versionData : Except PyErr ScmVersion
  defaultVersionScheme : ScmVersion → String
  defaultLocalScheme : ScmVersion → String

/-- Python's `str` applied to a tag that already renders as a string. -/
def pyStr (s : String) : String := s

/-- `GitWorkdir(Path("../").resolve()).get_branch()`: the branch lookup of
the parent directory, answered by the environment. -/
def get_branch (env : ScmEnv) : Except PyErr String :=
  env.getBranch

/-- `get_version(root="../", version_scheme=vs, local_scheme=ls)`:
`setuptools_scm` resolves the version metadata and formats it as
`vs(v) + ls(v)`. -/
def get_version (env : ScmEnv) (vs ls : ScmVersion → String) :
    Except PyErr String :=
  env.versionData.map (fun v => vs v ++ ls v)

/-- `get_version(root='../')`: version resolution with the library's default
schemes, yielding the full auto-derived development version string. -/
def get_version_default (env : ScmEnv) : Except PyErr String :=
  get_version env env.defaultVersionScheme env.defaultLocalScheme

/-- A module namespace: association list of top-level names, most recent
binding first. -/
abbrev PyNamespace := List (String × PyVal)

/-- A Python top-level assignment `n = v` adds the most recent binding. -/
def assign (ns : PyNamespace) (n : String) (v : PyVal) : PyNamespace :=
  (n, v) :: ns

/-- Reading a name from the namespace returns its most recent binding. -/
def lookupVar (ns : PyNamespace) (n : String) : Option PyVal :=
  match ns with
  | [] => none
  | (k, v) :: rest => if k = n then some v else lookupVar rest n

/-- Evaluation of the module body of `docs/conf.py`, statement by statement
in source order.  Raising inside a library call aborts the whole evaluation
with that error. -/
def evalConf (env : ScmEnv) : Except PyErr PyNamespace := do
  let ns : PyNamespace := []
  let b ← get_branch env
  let ns ←
    if b = "stable" then do
      let r ← get_version env (fun v => pyStr v.tag) (fun _ => "")
      pure (assign ns "release" (.str r))
    else do
      let r ← get_version_default env
      pure (assign ns "release" (.str r))
  let ns := assign ns "project" (.str "Configurature")
  let ns := assign ns "copyright" (.str "2024, Google LLC")
  let ns := assign ns "author" (.str "Ian Moore")
  let ns := assign ns "extensions" (.listv [])
  let ns := assign ns "templates_path" (.listv [])
  let ns := assign ns "exclude_patterns" (.listv [])
  let ns := assign ns "extensions" (.listv
    [.str "myst_parser", .str "sphinx_tabs.tabs",
     .str "sphinx.ext.autosectionlabel"])
  let ns := assign ns "autosectionlabel_prefix_document" (.bool true)
  let ns := assign ns "html_theme" (.str "sphinx_rtd_theme")
  let ns := assign ns "html_static_path" (.listv [])
  pure ns

/-- The namespace produced by a successful evaluation, as a function of the
release string: every other binding is a fixed constant. -/
def confNS (r : String) : PyNamespace :=
  [("html_static_path", .listv []),
   ("html_theme", .str "sphinx_rtd_theme"),
   ("autosectionlabel_prefix_document", .bool true),
   ("extensions", .listv
     [.str "myst_parser", .str "sphinx_tabs.tabs",
      .str "sphinx.ext.autosectionlabel"]),
   ("exclude_patterns", .listv []),
   ("templates_path", .listv []),
   ("extensions", .listv []),
   ("author", .str "Ian Moore"),
   ("copyright", .str "2024, Google LLC"),
   ("project", .str "Configurature"),
   ("release", .str r)]

/-- The release string selected by the branch conditional. -/
def releaseOf (env : ScmEnv) (b : String) (v : ScmVersion) : String :=
  if b = "stable" then pyStr v.tag ++ ""
  else env.defaultVersionScheme v ++ env.defaultLocalScheme v

/-- Closed form of `evalConf`: it errors exactly when a library call errors,
and otherwise produces `confNS` of the branch-selected release string. -/
theorem evalConf_eq (env : ScmEnv) :
    evalConf env =
      match env.getBranch with
      | .error e => .error e
      | .ok b =>
        match env.versionData with
        | .error e => .error e
        | .ok v => .ok (confNS (releaseOf env b v)) := by
  cases hb : env.getBranch with
  | error e =>
    simp [evalConf, get_branch, hb, Bind.bind, Except.bind]
  | ok b =>
    cases hv : env.versionData with
    | error e =>
      by_cases hs : b = "stable" <;>
        simp [evalConf, get_branch, get_version, get_version_default,
          hb, hv, hs, Bind.bind, Except.bind, Except.map, Functor.map,
          Pure.pure, Except.pure, assign, confNS, releaseOf]
    | ok v =>
      by_cases hs : b = "stable" <;>
        simp [evalConf, get_branch, get_version, get_version_default,
          hb, hv, hs, Bind.bind, Except.bind, Except.map, Functor.map,
          Pure.pure, Except.pure, assign, confNS, releaseOf]

/-- Any successful evaluation produces `confNS r` for some release string. -/
theorem evalConf_ok_shape (env : ScmEnv) (ns : PyNamespace)
    (h : evalConf env = .ok ns) : ∃ r, ns = confNS r := by
  rw [evalConf_eq] at h
  cases hb : env.getBranch with
  | error e => rw [hb] at h; exact absurd h (by simp)
  | ok b =>
    cases hv : env.versionData with
    | error e => rw [hb, hv] at h; exact absurd h (by simp)
    | ok v =>
      rw [hb, hv] at h
      exact ⟨releaseOf env b v, (Except.ok.injEq _ _ ▸ h).symm⟩

/-- The ten configuration names the spec lists as the file's surface. -/
def configNames : List String :=
  ["project", "copyright", "author", "release", "extensions",
   "templates_path", "exclude_patterns", "html_theme", "html_static_path",
   "autosectionlabel_prefix_document"]

/-- The configuration names other than `release`. -/
def nonReleaseNames : List String :=
  ["project", "copyright", "author", "extensions", "templates_path",
   "exclude_patterns", "html_theme", "html_static_path",
   "autosectionlabel_prefix_document"]

/-- A concrete resolved version used by the witnesses. -/
def vTest : ScmVersion := ⟨"1.2.3"⟩

/-- Witness environment: the repository is on the stable branch. -/
def envStable : ScmEnv :=
  { getBranch := .ok "stable"
    versionData := .ok vTest
    defaultVersionScheme := fun v => v.tag ++ ".dev1"
    defaultLocalScheme := fun _ => "+g123" }

/-- Witness environment: the repository is on a development branch. -/
def envDev : ScmEnv :=
  { getBranch := .ok "main"
    versionData := .ok vTest
    defaultVersionScheme := fun v => v.tag ++ ".dev1"
    defaultLocalScheme := fun _ => "+g123" }

/-- Witness environment: the branch lookup raises. -/
def envBranchFail : ScmEnv :=
  { getBranch := .error (.exc "git failed")
    versionData := .ok vTest
    defaultVersionScheme := fun v => v.tag ++ ".dev1"
    defaultLocalScheme := fun _ => "+g123" }

/-- Witness environment: version resolution raises. -/
def envVersionFail : ScmEnv :=
  { getBranch := .ok "main"
    versionData := .error (.exc "no version")
    defaultVersionScheme := fun v => v.tag ++ ".dev1"
    defaultLocalScheme := fun _ => "+g123" }

/-- C1: when the branch lookup yields "stable", `release` is the bare tag
string `str(v.tag)` with the empty local suffix appended; for any other
branch, `release` is exactly the string returned by `get_version(root='../')`
with default schemes. -/
theorem release_branch_selection (env : ScmEnv) (b : String) (v : ScmVersion)
    (hb : env.getBranch = .ok b) (hv : env.versionData = .ok v) :
    ∃ ns, evalConf env = .ok ns ∧
      ((b = "stable" →
          lookupVar ns "release" = some (.str (pyStr v.tag ++ ""))) ∧
       (b ≠ "stable" →
          ∃ r, get_version_default env = .ok r ∧
            lookupVar ns "release" = some (.str r))) := by
  refine ⟨confNS (releaseOf env b v), ?_, ?_, ?_⟩
  · rw [evalConf_eq, hb, hv]
  · intro hs
    simp [releaseOf, hs, confNS, lookupVar]
  · intro hs
    refine ⟨env.defaultVersionScheme v ++ env.defaultLocalScheme v, ?_, ?_⟩
    · simp [get_version_default, get_version, hv, Except.map]
    · simp [releaseOf, hs, confNS, lookupVar]

/-- C1 witness: the theorem applied to the stable-branch environment and to
a development-branch environment. -/
theorem release_branch_selection_witness :
    (∃ ns, evalConf envStable = .ok ns ∧
      lookupVar ns "release" = some (.str "1.2.3")) ∧
    (∃ ns, evalConf envDev = .ok ns ∧
      lookupVar ns "release" = some (.str "1.2.3.dev1+g123")) := by
  constructor
  · obtain ⟨ns, hns, h1, _⟩ :=
      release_branch_selection envStable "stable" vTest rfl rfl
    exact ⟨ns, hns, h1 rfl⟩
  · obtain ⟨ns, hns, _, h2⟩ :=
      release_branch_selection envDev "main" vTest rfl rfl
    obtain ⟨r, hr, hl⟩ := h2 (by decide)
    have : r = "1.2.3.dev1+g123" := by
      have hr2 : get_version_default envDev = .ok "1.2.3.dev1+g123" := rfl
      rw [hr] at hr2
      exact (Except.ok.injEq _ _ ▸ hr2)
    exact ⟨ns, hns, this ▸ hl⟩

/-- C2: an error raised by the branch lookup, or by version resolution once
a branch was obtained, propagates uncaught: evaluation terminates with that
error and produces no namespace. -/
theorem scm_error_propagates (env : ScmEnv) (e : PyErr) :
    (env.getBranch = .error e → evalConf env = .error e) ∧
    (∀ b, env.getBranch = .ok b → env.versionData = .error e →
        evalConf env = .error e) := by
  constructor
  · intro hb
    rw [evalConf_eq, hb]
  · intro b hb hv
    rw [evalConf_eq, hb, hv]

/-- C2 witness: the theorem applied to a failing branch lookup and to a
failing version resolution. -/
theorem scm_error_propagates_witness :
    evalConf envBranchFail = .error (.exc "git failed") ∧
    evalConf envVersionFail = .error (.exc "no version") :=
  ⟨(scm_error_propagates envBranchFail (.exc "git failed")).1 rfl,
   (scm_error_propagates envVersionFail (.exc "no version")).2 "main" rfl rfl⟩

/-- C3: noninterference of the branch and version inputs: any two successful
evaluations agree on every configuration name other than `release`. -/
theorem branch_noninterference (env1 env2 : ScmEnv) (ns1 ns2 : PyNamespace)
    (h1 : evalConf env1 = .ok ns1) (h2 : evalConf env2 = .ok ns2) :
    ∀ n ∈ nonReleaseNames, lookupVar ns1 n = lookupVar ns2 n := by
  obtain ⟨r1, rfl⟩ := evalConf_ok_shape env1 ns1 h1
  obtain ⟨r2, rfl⟩ := evalConf_ok_shape env2 ns2 h2
  intro n hn
  fin_cases hn <;> rfl

/-- C3 witness: the theorem applied to the stable and development
environments at the name "project". -/
theorem branch_noninterference_witness :
    lookupVar (confNS "1.2.3") "project" =
      lookupVar (confNS "1.2.3.dev1+g123") "project" :=
  branch_noninterference envStable envDev _ _ rfl rfl "project"
    (by simp [nonReleaseNames])

/-- C4: the set of top-level names assigned by the file is exactly the
ten-name configuration surface, no more and no fewer. -/
theorem assigned_names_exact (env : ScmEnv) (ns : PyNamespace)
    (h : evalConf env = .ok ns) :
    ∀ n, n ∈ ns.map Prod.fst ↔ n ∈ configNames := by
  obtain ⟨r, rfl⟩ := evalConf_ok_shape env ns h
  intro n
  simp only [confNS, configNames, List.map_cons, List.map_nil,
    List.mem_cons, List.not_mem_nil, or_false]
  tauto

/-- C4 witness: the theorem applied to the stable environment at the name
"release". -/
theorem assigned_names_exact_witness :
    "release" ∈ (confNS "1.2.3").map Prod.fst ↔ "release" ∈ configNames :=
  assigned_names_exact envStable _ rfl "release"

/-- C5: every configuration value has the spec's shape: the five scalar
names hold strings, the four list names hold lists of strings, and the
label-prefixing flag holds a boolean. -/
theorem value_shapes (env : ScmEnv) (ns : PyNamespace)
    (h : evalConf env = .ok ns) :
    (∀ n ∈ (["project", "copyright", "author", "html_theme",
        "release"] : List String),
      ∃ s, lookupVar ns n = some (.str s)) ∧
    (∀ n ∈ (["extensions", "templates_path", "exclude_patterns",
        "html_static_path"] : List String),
      ∃ xs, lookupVar ns n = some (.listv xs) ∧
        ∀ x ∈ xs, ∃ s, x = .str s) ∧
    (∃ flag, lookupVar ns "autosectionlabel_prefix_document" =
      some (.bool flag)) := by
  obtain ⟨r, rfl⟩ := evalConf_ok_shape env ns h
  refine ⟨?_, ?_, true, rfl⟩
  · intro n hn
    fin_cases hn
    · exact ⟨"Configurature", rfl⟩
    · exact ⟨"2024, Google LLC", rfl⟩
    · exact ⟨"Ian Moore", rfl⟩
    · exact ⟨"sphinx_rtd_theme", rfl⟩
    · exact ⟨r, rfl⟩
  · intro n hn
    fin_cases hn
    · refine ⟨[.str "myst_parser", .str "sphinx_tabs.tabs",
        .str "sphinx.ext.autosectionlabel"], rfl, ?_⟩
      intro x hx
      fin_cases hx
      · exact ⟨"myst_parser", rfl⟩
      · exact ⟨"sphinx_tabs.tabs", rfl⟩
      · exact ⟨"sphinx.ext.autosectionlabel", rfl⟩
    · exact ⟨[], rfl, by simp⟩
    · exact ⟨[], rfl, by simp⟩
    · exact ⟨[], rfl, by simp⟩

/-- C5 witness: the theorem applied to the development environment,
projected to the shapes of "release" and "extensions" and the flag. -/
theorem value_shapes_witness :
    (∃ s, lookupVar (confNS "1.2.3.dev1+g123") "release" =
      some (.str s)) ∧
    (∃ xs, lookupVar (confNS "1.2.3.dev1+g123") "extensions" =
      some (.listv xs) ∧ ∀ x ∈ xs, ∃ s, x = .str s) ∧
    (∃ flag, lookupVar (confNS "1.2.3.dev1+g123")
      "autosectionlabel_prefix_document" = some (.bool flag)) := by
  obtain ⟨hstr, hlist, hflag⟩ := value_shapes envDev _ rfl
  exact ⟨hstr "release" (by simp), hlist "extensions" (by simp), hflag⟩

/-- C6: the final value of `extensions` is exactly the three-element list;
the earlier empty-list assignment is shadowed, contributing nothing. -/
theorem extensions_final (env : ScmEnv) (ns : PyNamespace)
    (h : evalConf env = .ok ns) :
    lookupVar ns "extensions" = some (.listv
      [.str "myst_parser", .str "sphinx_tabs.tabs",
       .str "sphinx.ext.autosectionlabel"]) ∧
    ("extensions", PyVal.listv []) ∈ ns := by
  obtain ⟨r, rfl⟩ := evalConf_ok_shape env ns h
  exact ⟨rfl, by simp [confNS]⟩

/-- C6 witness: the theorem applied to the stable environment. -/
theorem extensions_final_witness :
    lookupVar (confNS "1.2.3") "extensions" = some (.listv
      [.str "myst_parser", .str "sphinx_tabs.tabs",
       .str "sphinx.ext.autosectionlabel"]) :=
  (extensions_final envStable _ rfl).1

/-- C7: the three path/pattern lists are empty and the label-prefixing flag
is True, in every successful evaluation. -/
theorem paths_empty_flag_true (env : ScmEnv) (ns : PyNamespace)
    (h : evalConf env = .ok ns) :
    lookupVar ns "templates_path" = some (.listv []) ∧
    lookupVar ns "exclude_patterns" = some (.listv []) ∧
    lookupVar ns "html_static_path" = some (.listv []) ∧
    lookupVar ns "autosectionlabel_prefix_document" = some (.bool true) := by
  obtain ⟨r, rfl⟩ := evalConf_ok_shape env ns h
  exact ⟨rfl, rfl, rfl, rfl⟩

/-- C7 witness: the theorem applied to the development environment. -/
theorem paths_empty_flag_true_witness :
    lookupVar (confNS "1.2.3.dev1+g123") "templates_path" =
      some (.listv []) ∧
    lookupVar (confNS "1.2.3.dev1+g123") "exclude_patterns" =
      some (.listv []) ∧
    lookupVar (confNS "1.2.3.dev1+g123") "html_static_path" =
      some (.listv []) ∧
    lookupVar (confNS "1.2.3.dev1+g123") "autosectionlabel_prefix_document" =
      some (.bool true) :=
  paths_empty_flag_true envDev _ rfl

/-- C8: the identity and theme scalars are the exact constants, in every
successful evaluation. -/
theorem identity_constants (env : ScmEnv) (ns : PyNamespace)
    (h : evalConf env = .ok ns) :
    lookupVar ns "project" = some (.str "Configurature") ∧
    lookupVar ns "copyright" = some (.str "2024, Google LLC") ∧
    lookupVar ns "author" = some (.str "Ian Moore") ∧
    lookupVar ns "html_theme" = some (.str "sphinx_rtd_theme") := by
  obtain ⟨r, rfl⟩ := evalConf_ok_shape env ns h
  exact ⟨rfl, rfl, rfl, rfl⟩

/-- C8 witness: the theorem applied to the stable environment. -/
theorem identity_constants_witness :
    lookupVar (confNS "1.2.3") "project" = some (.str "Configurature") ∧
    lookupVar (confNS "1.2.3") "copyright" = some (.str "2024, Google LLC") ∧
    lookupVar (confNS "1.2.3") "author" = some (.str "Ian Moore") ∧
    lookupVar (confNS "1.2.3") "html_theme" =
      some (.str "sphinx_rtd_theme") :=
  identity_constants envStable _ rfl
